import Mathlib

/-!
Verification of the flow_bt repository (Flow 2 BLE client) against its
specification.  The Python sources are shallowly embedded:

* `protocol.py`  — pure codec functions (`decode_live_pm_value`,
  `decode_history_timestamp`), embedded as total Lean functions over byte
  lists, with Python slice semantics (`pySlice`, including negative indices)
  made explicit and the host `datetime.fromtimestamp` abstracted as an
  `Option`-valued parameter (it either returns a calendar time or raises
  `ValueError`/`OSError`, which the source catches).
* `client.py`    — the `Flow2Client` session controller, embedded as pure
  transition functions on an explicit `ClientState`, each returning the new
  state, a trace of the GATT/bookkeeping operations performed (in order), and
  the exception raised, if any.  Fallible transport operations are driven by
  explicit Boolean failure parameters.

IEEE-754 values are represented by their 32-bit little-endian bit patterns:
Python's `struct.unpack('<f', s)` is a bijection between 4-byte strings and
these patterns, so "returns exactly the float encoded by the bytes" is
"returns exactly the 32-bit word formed by the bytes".
-/

namespace FlowBT

/-- Little-endian 32-bit word formed from four bytes: the value of
`struct.unpack('<I', ...)` and the bit pattern of `struct.unpack('<f', ...)`. -/
def le32 (b0 b1 b2 b3 : ℕ) : ℕ :=
  b0 + 256 * b1 + 256 ^ 2 * b2 + 256 ^ 3 * b3

/-- Python's normalisation of a slice endpoint `i` for a sequence of length
`n`: negative indices count from the end (clamped below at 0), non-negative
ones are clamped above at `n`. -/
def pyIndex (n : ℕ) (i : ℤ) : ℕ :=
  if i < 0 then ((n : ℤ) + i).toNat else min i.toNat n

/-- Python slice `l[a:b]` (step 1) on a byte list, with Python's
negative-index rules. -/
def pySlice (l : List ℕ) (a b : ℤ) : List ℕ :=
  (l.drop (pyIndex l.length a)).take (pyIndex l.length b - pyIndex l.length a)

/-- Unpacking of `struct.unpack('<I', s)[0]` (equally, the bit pattern of
`struct.unpack('<f', s)[0]`): defined exactly on 4-byte inputs, `none`
standing for the `struct.error` the source catches. -/
def unpackLE32 : List ℕ → Option ℕ
  | [b0, b1, b2, b3] => some (le32 b0 b1 b2 b3)
  | _ => none

/-- Embedding of `decode_live_pm_value` from `protocol.py`: `none` is the
decode failure (the source returns `None`); a returned word is the bit
pattern of the little-endian IEEE-754 single-precision float the source
returns. -/
def decode_live_pm_value (data : List ℕ) : Option ℕ :=
  if data.length ≠ 20 then none
  else unpackLE32 (pySlice data 8 12)

/-- Embedding of `decode_history_timestamp` from `protocol.py`.
`fromtimestamp` abstracts the host `datetime.fromtimestamp`: `some t` when
the epoch value is representable as a host calendar time, `none` when it
raises `ValueError`/`OSError` (caught in the source, which then returns
`None`).  The `offset` parameter is a Python `int`, hence `ℤ`. -/
def decode_history_timestamp (fromtimestamp : ℕ → Option ℕ)
    (data : List ℕ) (offset : ℤ) : Option ℕ :=
  if (data.length : ℤ) < offset + 4 then none
  else
    match unpackLE32 (pySlice data offset (offset + 4)) with
    | some w => fromtimestamp w
    | none => none

/-! Helper lemmas about slices. -/

theorem pyIndex_ofNat (n k : ℕ) : pyIndex n (k : ℤ) = min k n := by
  simp [pyIndex]

theorem pySlice_nat (l : List ℕ) (a b : ℕ) :
    pySlice l (a : ℤ) (b : ℤ) = (l.drop (min a l.length)).take (min b l.length - min a l.length) := by
  have hb : ((b : ℤ)) = ((b : ℕ) : ℤ) := rfl
  simp [pySlice, pyIndex_ofNat]

theorem drop_take_four (l : List ℕ) (k : ℕ) (h : k + 4 ≤ l.length) :
    (l.drop k).take 4 = [l.getD k 0, l.getD (k + 1) 0, l.getD (k + 2) 0, l.getD (k + 3) 0] := by
  induction l generalizing k with
  | nil => simp at h
  | cons x xs ih =>
    cases k with
    | zero =>
      simp only [List.length_cons] at h
      match xs, h with
      | b :: c :: d :: rest, _ => simp [List.getD]
    | succ k =>
      simp only [List.length_cons, Nat.succ_add, Nat.succ_le_succ_iff] at h
      have := ih k (by omega)
      simpa [List.getD] using this

theorem pySlice_window (l : List ℕ) (k : ℕ) (h : k + 4 ≤ l.length) :
    pySlice l (k : ℤ) ((k : ℤ) + 4) =
      [l.getD k 0, l.getD (k + 1) 0, l.getD (k + 2) 0, l.getD (k + 3) 0] := by
  have hk : min k l.length = k := by omega
  have hk4 : min (k + 4) l.length = k + 4 := by omega
  have hcast : ((k : ℤ) + 4) = ((k + 4 : ℕ) : ℤ) := by push_cast; ring
  rw [hcast, pySlice_nat, hk, hk4]
  have : k + 4 - k = 4 := by omega
  rw [this]
  exact drop_take_four l k h

/-! Session controller: `client.py` (`Flow2Client`). -/

/-- Modelled from the spec: `LIVE_DATA_PACKET_SIZE` is imported from
`flow_bt/constants.py`, which is absent from the sources; spec §6 fixes the
"Live-data packet size constant: 20 bytes". -/
def LIVE_DATA_PACKET_SIZE : ℕ := 20

/-- Exceptions of `exceptions.py` relevant to the client, plus the class of
transport (bleak) errors that can escape a method. -/
inductive FlowErr where
  | connectionError
  | authenticationError
  | notConnectedError
  | transportError
  deriving DecidableEq

/-- Observable GATT and bookkeeping operations a method performs, in the
order it performs them. -/
inductive GattOp where
  | transportConnect
  | authWrite
  | transportDisconnect (ofHandler : Bool)
  | batteryRead
  | subscribeData
  | activateWrite (withResponse : Bool)
  | unsubscribeData (failed : Bool)
  | fetchHistoryWrite
  | setStreamFlag
  | clearStreamFlag
  | spawnKeepAlive (id : ℕ)
  | cancelKeepAlive (id : ℕ)
  | awaitKeepAlive (id : ℕ)
  deriving DecidableEq

/-- Mutable state of a `Flow2Client` instance: `self.client` (whether it is
set, and whether it reports `is_connected`), whether the auth write has
succeeded on the current connection, `self.is_streaming`,
`self._keep_alive_task`, and `self._data_callback`.  `runningTasks` records
the ids of all keep-alive tasks that have been spawned and not yet
cancelled, so that task duplication is observable; `nextTaskId` numbers the
tasks `asyncio.create_task` spawns. -/
structure ClientState where
  clientExists : Bool
  connected : Bool
  authenticated : Bool
  is_streaming : Bool
  keepAliveTask : Option ℕ
  runningTasks : List ℕ
  nextTaskId : ℕ
  callbackSet : Bool
  deriving DecidableEq

/-- Result of one (async) method call: the state it leaves behind, the trace
of operations it performed, and the exception it raised, if any. -/
structure MRes where
  state : ClientState
  trace : List GattOp
  err : Option FlowErr
  deriving DecidableEq

/-- Embedding of `Flow2Client.connect`.  `connectFails` / `authWriteFails`
drive the two fallible transport operations; the `MentionsAuth` flags model
whether `"Authentication" in str(e)` holds for the corresponding exception
(the source's test for an authentication rejection).  The cleanup
`self.client.disconnect()` inside the handler is modelled as succeeding. -/
def connect (connectFails connectMentionsAuth authWriteFails authMentionsAuth : Bool)
    (s : ClientState) : MRes :=
  let s1 : ClientState :=
    { s with clientExists := true, connected := false, authenticated := false }
  if connectFails then
    { state := s1
      trace := [GattOp.transportConnect, GattOp.transportDisconnect true]
      err := some (if connectMentionsAuth then FlowErr.authenticationError
                   else FlowErr.connectionError) }
  else
    let s2 : ClientState := { s1 with connected := true }
    if authWriteFails then
      { state := { s2 with connected := false }
        trace := [GattOp.transportConnect, GattOp.authWrite, GattOp.transportDisconnect true]
        err := some (if authMentionsAuth then FlowErr.authenticationError
                     else FlowErr.connectionError) }
    else
      { state := { s2 with authenticated := true }
        trace := [GattOp.transportConnect, GattOp.authWrite]
        err := none }

/-- Embedding of `Flow2Client.read_battery`.  `readResult` is the outcome of
`read_gatt_char`: `none` when the read raises (caught by the source, which
returns `None`), otherwise the payload bytes.  `data[0]` on an empty payload
raises `IndexError`, also caught by the blanket `except Exception`.  The
returned value accompanies the `MRes`. -/
def read_battery (readResult : Option (List ℕ)) (s : ClientState) : MRes × Option ℕ :=
  if !(s.clientExists && s.connected) then
    ({ state := s, trace := [], err := some FlowErr.notConnectedError }, none)
  else
    match readResult with
    | none => ({ state := s, trace := [GattOp.batteryRead], err := none }, none)
    | some d =>
      match d.head? with
      | some b => ({ state := s, trace := [GattOp.batteryRead], err := none }, some b)
      | none => ({ state := s, trace := [GattOp.batteryRead], err := none }, none)

/-- Embedding of `Flow2Client.start_stream`.  The source checks only
connectedness (not `is_streaming`); it registers the callback, sets the
streaming flag, subscribes, writes the activation command with response, and
spawns a fresh keep-alive task, overwriting `self._keep_alive_task`.  The
subscribe and activation writes are modelled as succeeding. -/
def start_stream (s : ClientState) : MRes :=
  if !(s.clientExists && s.connected) then
    { state := s, trace := [], err := some FlowErr.notConnectedError }
  else
    { state :=
        { s with callbackSet := true, is_streaming := true,
                 keepAliveTask := some s.nextTaskId,
                 runningTasks := s.runningTasks ++ [s.nextTaskId],
                 nextTaskId := s.nextTaskId + 1 }
      trace := [GattOp.setStreamFlag, GattOp.subscribeData, GattOp.activateWrite true,
                GattOp.spawnKeepAlive s.nextTaskId]
      err := none }

/-- Embedding of `Flow2Client.stop_stream`.  `unsubFails` drives the
`stop_notify` call; its failure is caught and logged by the source.  The
awaited keep-alive task can only finish with `CancelledError` (its loop
catches every other `Exception`), which `stop_stream` catches, so no path
raises. -/
def stop_stream (unsubFails : Bool) (s : ClientState) : MRes :=
  if !s.is_streaming then { state := s, trace := [], err := none }
  else
    let s1 : ClientState := { s with is_streaming := false }
    let r2 : ClientState × List GattOp :=
      match s1.keepAliveTask with
      | some id =>
        ({ s1 with keepAliveTask := none, runningTasks := s1.runningTasks.erase id },
         [GattOp.cancelKeepAlive id, GattOp.awaitKeepAlive id])
      | none => (s1, [])
    if r2.1.clientExists && r2.1.connected then
      { state := r2.1
        trace := GattOp.clearStreamFlag :: r2.2 ++ [GattOp.unsubscribeData unsubFails]
        err := none }
    else
      { state := r2.1, trace := GattOp.clearStreamFlag :: r2.2, err := none }

/-- Embedding of `Flow2Client.disconnect`: `stop_stream` when streaming,
then `self.client.disconnect()` when a connected client exists.  That last
transport call is NOT wrapped in a `try`/`except` in the source, so its
failure (`transportDisconnectFails`) escapes to the caller. -/
def disconnect (unsubFails transportDisconnectFails : Bool) (s : ClientState) : MRes :=
  let r1 : MRes :=
    if s.is_streaming then stop_stream unsubFails s
    else { state := s, trace := [], err := none }
  if r1.state.clientExists && r1.state.connected then
    if transportDisconnectFails then
      { state := r1.state
        trace := r1.trace ++ [GattOp.transportDisconnect false]
        err := some FlowErr.transportError }
    else
      { state := { r1.state with connected := false, authenticated := false }
        trace := r1.trace ++ [GattOp.transportDisconnect false]
        err := none }
  else
    { state := r1.state, trace := r1.trace, err := none }

/-- Observer invocations made by the dispatch procedure; `live` carries the
bit pattern of the decoded float, `history` the raw bytes. -/
inductive ObsEvent where
  | live (bits : ℕ)
  | history (raw : List ℕ)
  deriving DecidableEq

/-- Embedding of `Flow2Client._notification_handler`: the observer calls it
makes for one incoming payload, in order.  The source guards each call on
`self._data_callback` being set (and, on the live path, on the decode
succeeding). -/
def notification_handler (s : ClientState) (data : List ℕ) : List ObsEvent :=
  if data.length = LIVE_DATA_PACKET_SIZE then
    match decode_live_pm_value data with
    | some v => if s.callbackSet then [ObsEvent.live v] else []
    | none => []
  else if data.length > LIVE_DATA_PACKET_SIZE then
    if s.callbackSet then [ObsEvent.history data] else []
  else []

/-- What the scheduler delivers to one wake of the keep-alive loop:
the iteration proceeds normally, its write raises, or the task is
cancelled (during the write or the sleep). -/
inductive KAEnv where
  | ok
  | writeFail
  | cancelled
  deriving DecidableEq

/-- How a run of the keep-alive loop ended. -/
inductive KAExit where
  | normalExit
  | cancelledExit
  | writeErrorExit
  | stillRunning
  deriving DecidableEq

/-- Embedding of `Flow2Client._keep_alive_loop`, run against a finite
schedule of per-iteration outcomes (an exhausted schedule leaves the task
`stillRunning`).  Each iteration re-checks `self.is_streaming`; a write is
attempted only when a connected client exists; `CancelledError` is caught
and ends the task; any other write exception is caught by the outer handler,
which logs and clears the streaming flag, ending the task with no retry. -/
def keep_alive_loop (s : ClientState) : List KAEnv → ClientState × List GattOp × KAExit
  | [] => (s, [], KAExit.stillRunning)
  | e :: rest =>
    if !s.is_streaming then (s, [], KAExit.normalExit)
    else if s.clientExists && s.connected then
      match e with
      | KAEnv.cancelled => (s, [], KAExit.cancelledExit)
      | KAEnv.writeFail =>
        ({ s with is_streaming := false }, [GattOp.activateWrite false], KAExit.writeErrorExit)
      | KAEnv.ok =>
        let r := keep_alive_loop s rest
        (r.1, GattOp.activateWrite false :: r.2.1, r.2.2)
    else
      match e with
      | KAEnv.cancelled => (s, [], KAExit.cancelledExit)
      | _ => keep_alive_loop s rest

/-! Helper lemmas for the codec theorems. -/

theorem unpackLE32_eq_none (l : List ℕ) (h : l.length ≠ 4) : unpackLE32 l = none := by
  match l, h with
  | [], _ => rfl
  | [_], _ => rfl
  | [_, _], _ => rfl
  | [_, _, _], _ => rfl
  | [_, _, _, _], h => simp at h
  | _ :: _ :: _ :: _ :: _ :: _, _ => rfl

theorem decode_live_window (data : List ℕ) (h : data.length = 20) :
    decode_live_pm_value data = unpackLE32 ((data.drop 8).take 4) := by
  have h8 : pyIndex 20 8 = 8 := by rfl
  have h12 : pyIndex 20 12 = 12 := by rfl
  simp [decode_live_pm_value, pySlice, h, h8, h12]

/-- C2: for every 20-byte input whose bytes at offsets 8–11 are
`b0, b1, b2, b3`, `decode_live_pm_value` returns exactly the float whose
little-endian IEEE-754 bit pattern is `le32 b0 b1 b2 b3`; for every input
whose length is not 20 it returns the decode failure `none`; it is a total
function (never raises). -/
theorem decode_live_pm_value_spec (pre post : List ℕ) (b0 b1 b2 b3 : ℕ)
    (hpre : pre.length = 8) (hpost : post.length = 8) :
    decode_live_pm_value (pre ++ [b0, b1, b2, b3] ++ post) = some (le32 b0 b1 b2 b3) ∧
    ∀ data : List ℕ, data.length ≠ 20 → decode_live_pm_value data = none := by
  constructor
  · have hlen : (pre ++ [b0, b1, b2, b3] ++ post).length = 20 := by
      simp [hpre, hpost]
    rw [decode_live_window _ hlen, List.append_assoc, ← hpre, List.drop_left]
    have h4 : ([b0, b1, b2, b3] ++ post).take 4 = [b0, b1, b2, b3] := by
      simp [List.take_left]
    rw [h4]
    rfl
  · intro data h
    simp [decode_live_pm_value, h]

/-- Witness for C2, instantiating the spec's scenario: the 20-byte packet
`[0]*8 ++ float32_le(35.5) ++ [0]*8` decodes to the bit pattern of 35.5
(0x420E0000 = 1108213760, little-endian bytes 00 00 0E 42). -/
theorem decode_live_pm_value_spec_witness :
    decode_live_pm_value (List.replicate 8 0 ++ [0, 0, 14, 66] ++ List.replicate 8 0) =
      some 1108213760 ∧
    decode_live_pm_value [1, 2, 3] = none := by
  have h := decode_live_pm_value_spec (List.replicate 8 0) (List.replicate 8 0)
    0 0 14 66 (by decide) (by decide)
  exact ⟨by simpa [le32] using h.1, h.2 [1, 2, 3] (by decide)⟩

/-- C6: for every input of length at least `offset + 4` (offset a byte
offset, hence non-negative here; see the companion negative-offset theorem
for the general `int` case), `decode_history_timestamp` hands the
little-endian 32-bit unsigned integer read at `offset` to the host calendar
conversion, returning its timestamp when the epoch is representable and the
decode failure `none` (`InvalidTimestamp`) when it is not; for every shorter
input it returns the decode failure `none` (`InvalidLength`); it is a total
function (never raises). -/
theorem decode_history_timestamp_spec (ft : ℕ → Option ℕ) (data : List ℕ) (offset : ℕ) :
    (data.length < offset + 4 → decode_history_timestamp ft data offset = none) ∧
    (offset + 4 ≤ data.length →
      decode_history_timestamp ft data offset =
        ft (le32 (data.getD offset 0) (data.getD (offset + 1) 0)
             (data.getD (offset + 2) 0) (data.getD (offset + 3) 0))) := by
  constructor
  · intro h
    rw [decode_history_timestamp, if_pos (by omega)]
  · intro h
    rw [decode_history_timestamp, if_neg (by omega),
      pySlice_window data offset h]
    rfl

/-- Witness for C6, instantiating the spec's scenario: a packet whose first
four bytes are `0x64, 0, 0, 0` yields epoch 100 when the host can represent
it, and `none` both when the host cannot (`InvalidTimestamp`) and when the
input is shorter than `offset + 4` (`InvalidLength`). -/
theorem decode_history_timestamp_spec_witness :
    decode_history_timestamp (fun t => some t) (100 :: 0 :: 0 :: 0 :: List.replicate 21 0) 0 =
      some 100 ∧
    decode_history_timestamp (fun _ => none) (100 :: 0 :: 0 :: 0 :: List.replicate 21 0) 0 =
      none ∧
    decode_history_timestamp (fun t => some t) [1, 2, 3] 0 = none := by
  refine ⟨?_, ?_, ?_⟩
  · have h := (decode_history_timestamp_spec (fun t => some t)
      (100 :: 0 :: 0 :: 0 :: List.replicate 21 0) 0).2 (by decide)
    simpa [le32] using h
  · have h := (decode_history_timestamp_spec (fun _ => none)
      (100 :: 0 :: 0 :: 0 :: List.replicate 21 0) 0).2 (by decide)
    simpa using h
  · exact (decode_history_timestamp_spec (fun t => some t) [1, 2, 3] 0).1 (by decide)

/-- C10: `decode_history_timestamp` is total over every byte list and every
integer offset (it is a Lean function into `Option`; the source catches
`struct.error`, `ValueError` and `OSError`).  For a negative offset the
length precondition `len(data) >= offset + 4` can hold while the Python
slice `data[offset : offset + 4]` has fewer than 4 bytes; there the unpack
raises `struct.error`, which the source catches, returning `None`. -/
theorem decode_history_timestamp_neg (ft : ℕ → Option ℕ) (data : List ℕ) (offset : ℤ)
    (_hneg : offset < 0) (hlen : offset + 4 ≤ (data.length : ℤ))
    (hshort : (pySlice data offset (offset + 4)).length ≠ 4) :
    decode_history_timestamp ft data offset = none := by
  rw [decode_history_timestamp, if_neg (by omega), unpackLE32_eq_none _ hshort]

/-- Witness for C10: ten bytes with offset −2 satisfy the length guard
(10 ≥ 2) but slice to the empty list, and the decode returns `none`. -/
theorem decode_history_timestamp_neg_witness :
    ((-2 : ℤ) + 4 ≤ ((List.replicate 10 0 : List ℕ).length : ℤ)) ∧
    (pySlice (List.replicate 10 0) (-2) ((-2) + 4)).length = 0 ∧
    decode_history_timestamp (fun t => some t) (List.replicate 10 0) (-2) = none := by
  refine ⟨by decide, by decide, ?_⟩
  exact decode_history_timestamp_neg (fun t => some t) (List.replicate 10 0) (-2)
    (by decide) (by decide) (by decide)

/-! Client-level claims. -/

/-- Convenience: whether the source's guard
`not self.client or not self.client.is_connected` holds, i.e. the session
has no active connection. -/
def isDisconnected (s : ClientState) : Bool := !(s.clientExists && s.connected)

/-- Concrete state after a successful `connect`: connected and
authenticated, not streaming. -/
def demoAuth : ClientState :=
  { clientExists := true, connected := true, authenticated := true,
    is_streaming := false, keepAliveTask := none, runningTasks := [],
    nextTaskId := 0, callbackSet := false }

/-- Concrete state during streaming: one keep-alive task (id 0) running. -/
def demoStreaming : ClientState :=
  { clientExists := true, connected := true, authenticated := true,
    is_streaming := true, keepAliveTask := some 0, runningTasks := [0],
    nextTaskId := 1, callbackSet := true }

/-- C1: with an observer registered, `_notification_handler` routes by
length alone: a 20-byte payload takes only the live path (one `live` call
with the decoded value when decoding succeeds, no call when it fails); a
longer payload takes only the history path, with the bytes passed through
unmodified; a shorter payload produces no observer call. -/
theorem notification_handler_spec (s : ClientState) (data : List ℕ)
    (hcb : s.callbackSet = true) :
    (data.length = 20 →
      ((∀ v, decode_live_pm_value data = some v →
          notification_handler s data = [ObsEvent.live v]) ∧
        (decode_live_pm_value data = none → notification_handler s data = []))) ∧
    (data.length > 20 → notification_handler s data = [ObsEvent.history data]) ∧
    (data.length < 20 → notification_handler s data = []) := by
  refine ⟨fun h20 => ⟨fun v hv => ?_, fun hv => ?_⟩, fun hgt => ?_, fun hlt => ?_⟩
  · simp [notification_handler, LIVE_DATA_PACKET_SIZE, h20, hv, hcb]
  · simp [notification_handler, LIVE_DATA_PACKET_SIZE, h20, hv]
  · simp [notification_handler, LIVE_DATA_PACKET_SIZE, hcb,
      show data.length ≠ 20 by omega, hgt]
  · simp [notification_handler, LIVE_DATA_PACKET_SIZE,
      show data.length ≠ 20 by omega, show ¬data.length > 20 by omega]

/-- Witness for C1: a 25-byte payload is forwarded raw on the history path;
a 20-byte live packet produces one live call; a 3-byte payload none. -/
theorem notification_handler_spec_witness :
    notification_handler demoStreaming (List.replicate 25 9) =
      [ObsEvent.history (List.replicate 25 9)] ∧
    notification_handler demoStreaming (List.replicate 20 0) = [ObsEvent.live 0] ∧
    notification_handler demoStreaming [1, 2, 3] = [] := by
  refine ⟨(notification_handler_spec demoStreaming (List.replicate 25 9) rfl).2.1
      (by decide), ?_, (notification_handler_spec demoStreaming [1, 2, 3] rfl).2.2 (by decide)⟩
  exact ((notification_handler_spec demoStreaming (List.replicate 20 0) rfl).1
    (by decide)).1 0 (by decide)

/-- C3 counterexample: from a freshly authenticated state, a second
`start_stream` without an intervening `stop_stream` is NOT a no-op — it
performs GATT operations again (re-subscribe, re-activation) and leaves TWO
keep-alive tasks running, not one. -/
theorem start_stream_twice_counterexample :
    (start_stream (start_stream demoAuth).state).state.runningTasks.length = 2 ∧
    GattOp.subscribeData ∈ (start_stream (start_stream demoAuth).state).trace ∧
    GattOp.activateWrite true ∈ (start_stream (start_stream demoAuth).state).trace ∧
    (start_stream (start_stream demoAuth).state).trace ≠ [] := by
  decide

/-- C3 amended: `start_stream` does not check the streaming flag; called
while connected (streaming or not) it re-subscribes, re-sends the
activation command, spawns a fresh keep-alive task in addition to the ones
already running, and overwrites the stored task handle with the new one. -/
theorem start_stream_twice_amended (s : ClientState)
    (hc : s.clientExists = true) (hconn : s.connected = true) :
    (start_stream s).err = none ∧
    (start_stream s).state.runningTasks = s.runningTasks ++ [s.nextTaskId] ∧
    (start_stream s).state.keepAliveTask = some s.nextTaskId ∧
    GattOp.subscribeData ∈ (start_stream s).trace ∧
    GattOp.activateWrite true ∈ (start_stream s).trace ∧
    (start_stream s).state.is_streaming = true := by
  simp [start_stream, hc, hconn]

/-- Witness for the amended C3: applied to the (streaming) state reached by
a first `start_stream`, showing the duplicate task. -/
theorem start_stream_twice_amended_witness :
    (start_stream (start_stream demoAuth).state).state.runningTasks = [0, 1] := by
  have h := start_stream_twice_amended (start_stream demoAuth).state rfl rfl
  simpa using h.2.1

/-- C4 counterexample: `disconnect` can raise — the final
`self.client.disconnect()` is not wrapped in a `try`/`except`, so a
transport-disconnect failure propagates to the caller even though the
unsubscribe failure before it was absorbed. -/
theorem disconnect_raises_counterexample :
    (disconnect true true demoStreaming).err = some FlowErr.transportError := by
  decide

/-- C4 amended: `disconnect`, from any state, absorbs every teardown failure
before the final transport disconnect (in particular an unsubscribe failure,
which changes nothing observable but the logged flag), and whenever the
transport disconnect itself succeeds (or is not needed) it returns without
raising, leaving the session disconnected and not streaming; a failure of
the transport disconnect itself propagates. -/
theorem disconnect_amended (s : ClientState) (u td : Bool) :
    ((disconnect u false s).err = none ∧
      isDisconnected (disconnect u false s).state = true ∧
      (disconnect u false s).state.is_streaming = false) ∧
    (disconnect u td s).state = (disconnect (!u) td s).state ∧
    (disconnect u td s).err = (disconnect (!u) td s).err := by
  obtain ⟨ce, cn, au, st, ka, rt, nt, cb⟩ := s
  cases ce <;> cases cn <;> cases st <;> rcases ka with _ | id <;> cases td <;>
    simp [disconnect, stop_stream, isDisconnected]

/-- C5: the keep-alive loop, once streaming with a connected client:
(a) on a write failure it performs that single write, clears the streaming
flag and terminates at once — no further write happens regardless of the
remaining schedule (no retry);
(b) it never exits through the while-condition: its only terminations are
cancellation and write-failure self-termination (or it is still running);
(c) notification dispatch is not gated by the streaming flag: the handler's
observer calls are unchanged if the flag is flipped. -/
theorem keep_alive_loop_spec (s : ClientState) (rest sched : List KAEnv)
    (data : List ℕ) (b : Bool) (hs : s.is_streaming = true)
    (hc : s.clientExists = true) (hcn : s.connected = true) :
    keep_alive_loop s (KAEnv.writeFail :: rest) =
      ({ s with is_streaming := false }, [GattOp.activateWrite false],
        KAExit.writeErrorExit) ∧
    (keep_alive_loop s sched).2.2 ≠ KAExit.normalExit ∧
    notification_handler { s with is_streaming := b } data =
      notification_handler s data := by
  refine ⟨by simp [keep_alive_loop, hs, hc, hcn], ?_, by simp [notification_handler]⟩
  induction sched with
  | nil => simp [keep_alive_loop]
  | cons e rest ih =>
    cases e <;> simp [keep_alive_loop, hs, hc, hcn]
    exact ih

/-- Witness for C5 at a concrete streaming state and schedule. -/
theorem keep_alive_loop_spec_witness :
    keep_alive_loop demoStreaming [KAEnv.writeFail, KAEnv.ok] =
      ({ demoStreaming with is_streaming := false },
        [GattOp.activateWrite false], KAExit.writeErrorExit) ∧
    (keep_alive_loop demoStreaming [KAEnv.ok, KAEnv.cancelled]).2.2 ≠
      KAExit.normalExit := by
  have h := keep_alive_loop_spec demoStreaming [KAEnv.ok]
    [KAEnv.ok, KAEnv.cancelled] [] true rfl rfl rfl
  exact ⟨h.1, h.2.1⟩

/-- C7: `stop_stream` is idempotent — when not streaming it returns at once
with the state unchanged, an empty trace (no transport operation) and no
error; it never raises; its resulting state does not depend on whether the
unsubscribe fails; and when streaming it clears the streaming flag first
(trace position 0) and only then cancels and awaits the keep-alive task
(trace positions 1 and 2). -/
theorem stop_stream_spec (s : ClientState) (u : Bool) :
    (stop_stream u s).err = none ∧
    (s.is_streaming = false →
      stop_stream u s = { state := s, trace := [], err := none }) ∧
    (stop_stream u s).state = (stop_stream (!u) s).state ∧
    (s.is_streaming = true →
      (stop_stream u s).state.is_streaming = false ∧
      (stop_stream u s).trace.head? = some GattOp.clearStreamFlag ∧
      (∀ id, s.keepAliveTask = some id →
        (stop_stream u s).trace.get? 1 = some (GattOp.cancelKeepAlive id) ∧
        (stop_stream u s).trace.get? 2 = some (GattOp.awaitKeepAlive id))) := by
  obtain ⟨ce, cn, au, st, ka, rt, nt, cb⟩ := s
  cases st <;> rcases ka with _ | id <;> cases ce <;> cases cn <;>
    simp [stop_stream]

/-- Witness for C7: a non-streaming state is untouched; from a streaming
state the flag-clear precedes the task cancellation. -/
theorem stop_stream_spec_witness :
    stop_stream true demoAuth = { state := demoAuth, trace := [], err := none } ∧
    (stop_stream true demoStreaming).trace.head? = some GattOp.clearStreamFlag ∧
    (stop_stream true demoStreaming).trace.get? 1 =
      some (GattOp.cancelKeepAlive 0) := by
  refine ⟨(stop_stream_spec demoAuth true).2.1 rfl, ?_, ?_⟩
  · exact ((stop_stream_spec demoStreaming true).2.2.2 rfl).2.1
  · exact (((stop_stream_spec demoStreaming true).2.2.2 rfl).2.2 0 rfl).1

/-- C8: every failure during the transport connect or the authentication
write leaves the session disconnected and unauthenticated, closes the
half-open transport connection inside the handler, and signals exactly one
fault — `AuthenticationError` when the failure context mentions an
authentication rejection, `ConnectionError` otherwise; on success `connect`
ends connected and authenticated with no fault. -/
theorem connect_spec (s : ClientState) (f1 m1 f2 m2 : Bool) :
    (connect f1 m1 f2 m2 s).err =
      (if f1 then
        some (if m1 then FlowErr.authenticationError else FlowErr.connectionError)
       else if f2 then
        some (if m2 then FlowErr.authenticationError else FlowErr.connectionError)
       else none) ∧
    ((f1 || f2) = true →
      isDisconnected (connect f1 m1 f2 m2 s).state = true ∧
      (connect f1 m1 f2 m2 s).state.authenticated = false ∧
      GattOp.transportDisconnect true ∈ (connect f1 m1 f2 m2 s).trace) ∧
    ((f1 || f2) = false →
      (connect f1 m1 f2 m2 s).err = none ∧
      (connect f1 m1 f2 m2 s).state.connected = true ∧
      (connect f1 m1 f2 m2 s).state.authenticated = true) := by
  cases f1 <;> cases f2 <;> simp [connect, isDisconnected]

/-- Witness for C8: an auth-write rejection mentioning authentication yields
`AuthenticationError` and a closed connection; a success ends
authenticated. -/
theorem connect_spec_witness :
    (connect false false true true demoAuth).err = some FlowErr.authenticationError ∧
    isDisconnected (connect false false true true demoAuth).state = true ∧
    (connect false false false false demoAuth).state.authenticated = true := by
  have hf := connect_spec demoAuth false false true true
  have hg := connect_spec demoAuth false false false false
  exact ⟨hf.1, (hf.2.1 rfl).1, (hg.2.2 rfl).2.2⟩

/-- C9 counterexample: the source returns `data[0]` unclamped, so a payload
whose first byte is 200 makes `read_battery` return 200, which is not a
percentage in the range 0 to 100. -/
theorem read_battery_range_counterexample :
    (read_battery (some [200]) demoAuth).2 = some 200 ∧
    (read_battery (some [200]) demoAuth).1.err = none ∧ ¬(200 ≤ 100) := by
  decide

/-- C9 amended: `read_battery` raises `NotConnectedError` without an active
connection; otherwise it performs exactly one characteristic read and
returns the first byte of the payload as an integer (only a percentage in
0–100 when the device reports a compliant value — the source does not
clamp), and on a transport-level read failure it returns no value rather
than propagating the error. -/
theorem read_battery_amended (s : ClientState) (res : Option (List ℕ)) :
    (isDisconnected s = true →
      read_battery res s =
        ({ state := s, trace := [], err := some FlowErr.notConnectedError }, none)) ∧
    (isDisconnected s = false →
      (read_battery res s).1.err = none ∧
      (read_battery res s).1.trace = [GattOp.batteryRead] ∧
      (read_battery res s).1.state = s ∧
      (res = none → (read_battery res s).2 = none) ∧
      (∀ b d, res = some (b :: d) → (read_battery res s).2 = some b)) := by
  by_cases hd : isDisconnected s = true
  · refine ⟨fun _ => ?_, fun h => absurd hd (by simp [h])⟩
    simp only [isDisconnected, Bool.not_eq_true', Bool.and_eq_false_iff] at hd
    simp [read_battery, isDisconnected, hd]
  · have hd' : (s.clientExists && s.connected) = true := by
      simpa [isDisconnected] using hd
    refine ⟨fun h => absurd h hd, fun _ => ?_⟩
    rcases res with _ | ⟨_ | ⟨b, d⟩⟩ <;> simp [read_battery, hd']

/-- Witness for the amended C9 at concrete states and payloads. -/
theorem read_battery_amended_witness :
    read_battery (some [87]) { demoAuth with connected := false } =
      ({ state := { demoAuth with connected := false }, trace := [],
         err := some FlowErr.notConnectedError }, none) ∧
    (read_battery (some [87]) demoAuth).2 = some 87 ∧
    (read_battery none demoAuth).2 = none := by
  refine ⟨(read_battery_amended { demoAuth with connected := false }
      (some [87])).1 rfl, ?_, ?_⟩
  · exact ((read_battery_amended demoAuth (some [87])).2 rfl).2.2.2.2 87 [] rfl
  · exact ((read_battery_amended demoAuth none).2 rfl).2.2.2.1 rfl

end FlowBT
